import Mathlib

/-!
Shallow embedding of the CreatorGPT front-end (React/TypeScript) for
verification of its specification claims.

The embedding models, faithfully to the TypeScript source:
  - the JavaScript string trim used by the submit handlers;
  - the submit / start-analysis handlers of CreatorProfile,
    the two part_000 RealTimeLogger variants, RealTimeAnalysis and
    FinalRealTimeLogger;
  - the apiService object of src/services/api.ts;
  - the WebSocket onmessage / onclose / onerror handlers and the
    Analysis page status-polling loop;
  - the sentiment-percentage rendering (Number.prototype.toFixed);
  - the beforeunload cleanup path of use-page-leave;
  - FullScreenDashboard fetch / mock-data fallback and its render guard.

Effects (fetch, navigation, timers) are represented as explicit data
returned by the embedded handler functions.
-/

namespace CreatorGPT

/-- Code points of the ECMAScript WhiteSpace and LineTerminator sets, the
set stripped by String.prototype.trim (TAB, LF, VT, FF, CR, SP, NBSP,
OGHAM SPACE MARK, EN QUAD .. HAIR SPACE, LS, PS, NNBSP, MMSP,
IDEOGRAPHIC SPACE, BOM). -/
def jsWsCodes : List Nat :=
  [0x9, 0xA, 0xB, 0xC, 0xD, 0x20, 0xA0, 0x1680,
   0x2000, 0x2001, 0x2002, 0x2003, 0x2004, 0x2005, 0x2006, 0x2007,
   0x2008, 0x2009, 0x200A, 0x2028, 0x2029, 0x202F, 0x205F, 0x3000, 0xFEFF]

/-- Whether a character is JavaScript whitespace, per the set used by
String.prototype.trim (applied by the submit handlers as .trim()). -/
def isJsWs (c : Char) : Bool :=
  c.toNat ∈ jsWsCodes

/-- JavaScript String.prototype.trim on the character list of a string:
remove leading and trailing whitespace. -/
def jsTrimList (l : List Char) : List Char :=
  ((l.dropWhile isJsWs).reverse.dropWhile isJsWs).reverse

/-- JavaScript String.prototype.trim. -/
def jsTrim (s : String) : String :=
  String.mk (jsTrimList s.data)

/-- A string every character of which is JavaScript whitespace (the empty
string included). -/
def allJsWs (s : String) : Prop :=
  ∀ c ∈ s.data, isJsWs c = true

instance (s : String) : Decidable (allJsWs s) := by
  unfold allJsWs; infer_instance

/-- An HTTP method, as used by the fetch calls of the front end. -/
inductive HttpMethod
  | get
  | post
  deriving DecidableEq, Repr

/-- A network request issued by a handler: method, URL and the fields of
the JSON object sent as the request body (empty when no body is sent). -/
structure ApiCall where
  method : HttpMethod
  url : String
  bodyFields : List (String × String)
  deriving DecidableEq, Repr

/-- The analyze endpoint URL chosen by the part_000 RealTimeLogger
variants: the relative path in production, the absolute localhost URL in
development. -/
def analyzeApiUrl (isProd : Bool) : String :=
  if isProd then "/api/analyze" else "http://localhost:8000/api/analyze"

/-- baseURL of the axios instance of src/services/api.ts. -/
def apiBaseUrl (isProd : Bool) : String :=
  if isProd then "" else "http://localhost:8000"

/-- A client-side navigation action: the route navigated to together with
the channelId query value it carries (the handler encodes it with
encodeURIComponent; the query value recorded here is the decoded value the
target page reads back via useSearchParams). -/
structure NavAction where
  route : String
  queryChannelId : String
  deriving DecidableEq, Repr

/-- CreatorProfile.handleSubmit: navigate to the analysis route only when
the trimmed channel id is truthy (non-empty); no network request is made
by this handler. -/
def handleSubmit (channelId : String) : Option NavAction :=
  if jsTrim channelId ≠ "" then
    some { route := "/analysis-realtime", queryChannelId := channelId }
  else
    none

/-- startAnalysis of the first part_000 RealTimeLogger variant: return
(with an alert) when the trimmed input is empty, otherwise POST to the
analyze endpoint with JSON body field channel_id set to the trimmed
input. The returned value is the fetch issued, none when no fetch
happens. -/
def rtlStartAnalysis (isProd : Bool) (inputChannelId : String) : Option ApiCall :=
  if jsTrim inputChannelId = "" then
    none
  else
    some { method := .post, url := analyzeApiUrl isProd,
           bodyFields := [("channel_id", jsTrim inputChannelId)] }

/-- startAnalysis of the second part_000 RealTimeLogger variant; its body
is textually identical to the first variant. -/
def rtl2StartAnalysis (isProd : Bool) (inputChannelId : String) : Option ApiCall :=
  if jsTrim inputChannelId = "" then
    none
  else
    some { method := .post, url := analyzeApiUrl isProd,
           bodyFields := [("channel_id", jsTrim inputChannelId)] }

/-- apiService.startAnalysis request construction: api.post sends the
argument unchanged as the channel_id field. -/
def apiStartAnalysisRequest (isProd : Bool) (channelId : String) : ApiCall :=
  { method := .post, url := apiBaseUrl isProd ++ "/api/analyze",
    bodyFields := [("channel_id", channelId)] }

/-- The JavaScript expression channelIdToUse or-else channelId of
RealTimeAnalysis.startAnalysis: the parameter when it is present and
truthy (non-empty), the state value otherwise. -/
def jsOrElse (param : Option String) (fallback : String) : String :=
  match param with
  | none => fallback
  | some s => if s = "" then fallback else s

/-- RealTimeAnalysis.startAnalysis: compute idToUse, return when its trim
is empty, otherwise call apiService.startAnalysis with idToUse (not
trimmed). The returned value is the fetch issued. -/
def rtaStartAnalysis (isProd : Bool) (channelIdToUse : Option String)
    (channelId : String) : Option ApiCall :=
  let idToUse := jsOrElse channelIdToUse channelId
  if jsTrim idToUse = "" then
    none
  else
    some (apiStartAnalysisRequest isProd idToUse)

/-- Observable outcome of FinalRealTimeLogger.startAnalysis: the network
requests it issues, the log entries it adds (level, message), the delay of
the setTimeout it schedules, and whether processing was flagged. -/
structure FrtlResult where
  apiCalls : List ApiCall
  logEntries : List (String × String)
  timerDelayMs : Option Nat
  processingStarted : Bool
  deriving DecidableEq, Repr

/-- startAnalysis of FinalRealTimeLogger (the RealTimeLogger rendered by
the /analysis page): when the trimmed input is empty it only logs an
error; otherwise it logs, sets isProcessing and schedules a 2000 ms
setTimeout that fills in simulated results. It issues no network request
on either path. -/
def frtlStartAnalysis (channelUrl : String) : FrtlResult :=
  if jsTrim channelUrl = "" then
    { apiCalls := [],
      logEntries := [("error", "Please enter a valid YouTube channel URL")],
      timerDelayMs := none,
      processingStarted := false }
  else
    { apiCalls := [],
      logEntries := [("info", "Starting analysis for: " ++ channelUrl)],
      timerDelayMs := some 2000,
      processingStarted := true }

/-- channel_info object carried by status updates. -/
structure ChannelInfo where
  channel_name : String
  subscriber_count : String
  total_comments : Int
  deriving DecidableEq, Repr

/-- An AnalysisState-shaped WebSocket frame as declared by the part_000
RealTimeLogger interfaces (and the state those components keep): logs is
optional on the wire, matching the Array.isArray check of the second
variant. -/
structure AnalysisFrame where
  status : String
  step : String
  message : String
  progress : Int
  channel_info : Option ChannelInfo
  error : Option String
  logs : Option (List String)
  deriving DecidableEq, Repr

/-- onmessage of the first part_000 RealTimeLogger variant:
setAnalysisState(data) replaces the whole state with the parsed frame. -/
def rtl1OnMessage (_prev data : AnalysisFrame) : AnalysisFrame :=
  data

/-- onmessage of the second part_000 RealTimeLogger variant: spread-merge
of the previous state with the frame; fields present in the frame
override, logs is taken from the frame only when it is an array. -/
def rtl2OnMessage (prev data : AnalysisFrame) : AnalysisFrame :=
  { status := data.status
    step := data.step
    message := data.message
    progress := data.progress
    channel_info := (data.channel_info).orElse (fun _ => prev.channel_info)
    error := (data.error).orElse (fun _ => prev.error)
    logs := match data.logs with
            | some l => some l
            | none => prev.logs }

/-- State after a sequence of frames in the first variant. -/
def rtl1Run (init : AnalysisFrame) (frames : List AnalysisFrame) : AnalysisFrame :=
  frames.foldl rtl1OnMessage init

/-- State after a sequence of frames in the second variant. -/
def rtl2Run (init : AnalysisFrame) (frames : List AnalysisFrame) : AnalysisFrame :=
  frames.foldl rtl2OnMessage init

/-- The progress value the part_000 loggers render: both the Progress bar
value and the percentage label read analysisState.progress. -/
def rtlRenderedProgress (s : AnalysisFrame) : Int :=
  s.progress

/-- AnalysisStatus as declared by src/services/api.ts (the state the
polling Analysis page keeps). -/
structure AnalysisStatusR where
  status : String
  step : String
  message : String
  progress : Int
  channel_info : Option ChannelInfo
  error : Option String
  deriving DecidableEq, Repr

/-- One tick of the Analysis page polling loop: setStatus(currentStatus)
replaces the state with the polled response. -/
def analysisPollApply (_prev cur : AnalysisStatusR) : AnalysisStatusR :=
  cur

/-- State after a sequence of polled responses on the Analysis page. -/
def analysisPollRun (init : AnalysisStatusR) (updates : List AnalysisStatusR) :
    AnalysisStatusR :=
  updates.foldl analysisPollApply init

/-- The progress value the Analysis page renders: both the Progress bar
value and the percentage label read status.progress. -/
def analysisRenderedProgress (s : AnalysisStatusR) : Int :=
  s.progress

/-- Number.prototype.toFixed(1) on an exact rational: round to the
nearest multiple of one tenth (ties away from zero, which for the
non-negative percentages here agrees with rounding half up). -/
def toFixed1 (q : ℚ) : ℚ :=
  (round (10 * q) : ℤ) / 10

/-- sentiment_breakdown of the fetched AnalysisResults payload. -/
structure SentimentBreakdown where
  positive : ℚ
  neutral : ℚ
  negative : ℚ
  deriving DecidableEq, Repr

/-- The three percentage values the Analysis page renders from
results.sentiment_breakdown: each is displayed as value.toFixed(1)
followed by a percent sign. -/
def analysisRenderedBreakdown (b : SentimentBreakdown) : SentimentBreakdown :=
  { positive := toFixed1 b.positive
    neutral := toFixed1 b.neutral
    negative := toFixed1 b.negative }

/-- The positive percentage the part_002 Dashboard renders from
results.sentiment_breakdown (displayed as positive.toFixed(1) percent). -/
def dashboardRenderedPositive (b : SentimentBreakdown) : ℚ :=
  toFixed1 b.positive

/-- An axios failure as observed by the apiService catch blocks: the
optionally-chained backend detail field (none when the failure carries no
response, data or detail). -/
structure BackendFailure where
  detail : Option String
  deriving DecidableEq, Repr

/-- The JavaScript truthiness or-else of the apiService catch expression
detail-or-fallback: the optionally-chained detail when it is present and
truthy (non-empty), the fallback otherwise (an undefined chain or an empty
detail string is falsy). -/
def jsDetailOr (detail : Option String) (fallback : String) : String :=
  match detail with
  | none => fallback
  | some s => if s = "" then fallback else s

/-- The catch pattern shared by the apiService methods: rethrow a new
Error whose message is the backend detail when present and truthy,
otherwise the per-operation fallback message. -/
def apiWrap {α : Type} (outcome : Except BackendFailure α) (fallback : String) :
    Except String α :=
  match outcome with
  | .ok a => .ok a
  | .error e => .error (jsDetailOr e.detail fallback)

/-- Payload of GET /api/logs. -/
structure LogsPayload where
  logs : List String
  deriving DecidableEq, Repr

/-- Analyzed batch content as declared by src/services/api.ts. -/
structure AnalyzedContentR where
  batch_number : Int
  total_comments_processed : Int
  sentiment_breakdown : SentimentBreakdown
  positive_themes : List String
  negative_themes : List String
  viewer_suggestions : List String
  viewer_appreciation : List String
  content_recommendations : List String
  top_positive_comments : List String
  top_negative_comments : List String
  deriving DecidableEq, Repr

/-- AnalysisResults as declared by src/services/api.ts. -/
structure AnalysisResultsR where
  average_sentiment : Option ℚ
  total_comments : Option Int
  sentiment_breakdown : Option SentimentBreakdown
  detailed_results : Option String
  generated_files : Option (List String)
  analyzed_content : Option (List AnalyzedContentR)
  deriving DecidableEq, Repr

/-- A name-value-color chart slice as declared by src/services/api.ts. -/
structure ChartSlice where
  name : String
  value : ℚ
  color : String
  deriving DecidableEq, Repr

/-- A per-batch sentiment trend point as declared by src/services/api.ts. -/
structure TrendPoint where
  batch : String
  positive : ℚ
  neutral : ℚ
  negative : ℚ
  deriving DecidableEq, Repr

/-- A theme-analysis entry as declared by src/services/api.ts. -/
structure ThemeDatum where
  theme : String
  count : Int
  type : String
  deriving DecidableEq, Repr

/-- A word-frequency entry as declared by src/services/api.ts. -/
structure WordFrequencyR where
  word : String
  count : Int
  type : String
  deriving DecidableEq, Repr

/-- ChartData as declared by src/services/api.ts. -/
structure ChartDataR where
  sentiment_distribution : List ChartSlice
  sentiment_trends : List TrendPoint
  theme_analysis : List ThemeDatum
  score_ranges : List ChartSlice
  total_comments : Int
  average_sentiment : ℚ
  word_frequency_positive : List WordFrequencyR
  word_frequency_negative : List WordFrequencyR
  confidence_distribution : List ChartSlice
  deriving DecidableEq, Repr

/-- Payload of POST /api/reset. -/
structure MessagePayload where
  message : String
  deriving DecidableEq, Repr

/-- Payload of GET /api/available-files. -/
structure AvailableFiles where
  dashboard : Option String
  charts : List String
  reports : List String
  data_files : List String
  deriving DecidableEq, Repr

/-- Payload of the healthCheck GET on the API root. -/
structure HealthPayload where
  message : String
  status : String
  deriving DecidableEq, Repr

/-- apiService.startAnalysis error handling. -/
def apiServiceStartAnalysis (outcome : Except BackendFailure AnalysisStatusR) :
    Except String AnalysisStatusR :=
  apiWrap outcome "Failed to start analysis"

/-- apiService.getStatus error handling. -/
def apiServiceGetStatus (outcome : Except BackendFailure AnalysisStatusR) :
    Except String AnalysisStatusR :=
  apiWrap outcome "Failed to get status"

/-- apiService.getLogs error handling. -/
def apiServiceGetLogs (outcome : Except BackendFailure LogsPayload) :
    Except String LogsPayload :=
  apiWrap outcome "Failed to get logs"

/-- apiService.getResults error handling. -/
def apiServiceGetResults (outcome : Except BackendFailure AnalysisResultsR) :
    Except String AnalysisResultsR :=
  apiWrap outcome "Failed to get results"

/-- apiService.getAnalyzedContent error handling. -/
def apiServiceGetAnalyzedContent
    (outcome : Except BackendFailure (List AnalyzedContentR)) :
    Except String (List AnalyzedContentR) :=
  apiWrap outcome "Failed to get analyzed content"

/-- apiService.getChartData error handling. -/
def apiServiceGetChartData (outcome : Except BackendFailure ChartDataR) :
    Except String ChartDataR :=
  apiWrap outcome "Failed to get chart data"

/-- apiService.resetAnalysis error handling. -/
def apiServiceResetAnalysis (outcome : Except BackendFailure MessagePayload) :
    Except String MessagePayload :=
  apiWrap outcome "Failed to reset analysis"

/-- apiService.getAvailableFiles error handling. -/
def apiServiceGetAvailableFiles (outcome : Except BackendFailure AvailableFiles) :
    Except String AvailableFiles :=
  apiWrap outcome "Failed to get available files"

/-- apiService.healthCheck error handling: its catch ignores the failure
entirely and always rejects with the fixed message. -/
def apiServiceHealthCheck (outcome : Except BackendFailure HealthPayload) :
    Except String HealthPayload :=
  match outcome with
  | .ok a => .ok a
  | .error _ => .error "API server is not running"

/-- apiService.checkDashboardExists: await this.getAvailableFiles() and
report whether its dashboard field is non-null; any failure is caught and
turned into false. -/
def apiServiceCheckDashboardExists
    (outcome : Except BackendFailure AvailableFiles) : Except String Bool :=
  match apiServiceGetAvailableFiles outcome with
  | .ok files => .ok (files.dashboard ≠ none : Bool)
  | .error _ => .ok false

/-- Connection-related component state of the part_000 loggers; attempts
counts how many reconnect rounds happened so far (the source keeps no such
counter, which is what makes the retry uncapped and unbacked-off). -/
structure WsConnState where
  isConnected : Bool
  attempts : Nat
  deriving DecidableEq, Repr

/-- What a scheduled reconnect timer does when it fires. -/
inductive ReconnectAction
  /-- Variant 1: call connectWebSocket unconditionally. -/
  | reconnect
  /-- Variant 2: call connectWebSocket only when isCompleted is false. -/
  | reconnectIfNotCompleted
  deriving DecidableEq, Repr

/-- A timer registered with setTimeout: its delay and its action. -/
structure ScheduledTimer where
  delayMs : Nat
  action : ReconnectAction
  deriving DecidableEq, Repr

/-- onclose of the first part_000 RealTimeLogger variant: mark
disconnected and setTimeout(connectWebSocket, 3000). -/
def rtl1OnClose (s : WsConnState) : WsConnState × List ScheduledTimer :=
  ({ s with isConnected := false }, [{ delayMs := 3000, action := .reconnect }])

/-- onerror of the first part_000 RealTimeLogger variant: mark
disconnected only; no timer is scheduled. -/
def rtl1OnError (s : WsConnState) : WsConnState × List ScheduledTimer :=
  ({ s with isConnected := false }, [])

/-- onclose of the second part_000 RealTimeLogger variant: mark
disconnected and schedule a 3000 ms timer whose callback reconnects only
when the analysis is not completed. -/
def rtl2OnClose (s : WsConnState) : WsConnState × List ScheduledTimer :=
  ({ s with isConnected := false },
   [{ delayMs := 3000, action := .reconnectIfNotCompleted }])

/-- onerror of the second part_000 RealTimeLogger variant: mark
disconnected only; no timer is scheduled. -/
def rtl2OnError (s : WsConnState) : WsConnState × List ScheduledTimer :=
  ({ s with isConnected := false }, [])

/-- Whether a fired timer actually calls connectWebSocket, given the
isCompleted flag its closure sees. -/
def timerReconnects (isCompleted : Bool) : ReconnectAction → Bool
  | .reconnect => true
  | .reconnectIfNotCompleted => !isCompleted

/-- A browser storage area as a list of key-value pairs. -/
abbrev WebStorage := List (String × String)

/-- The key filter of the frontend cleanup fallback: keys starting with
creatorGPT, youtube or analysis. -/
def cleanupKeyMatches (k : String) : Bool :=
  k.startsWith "creatorGPT" || k.startsWith "youtube" || k.startsWith "analysis"

/-- The frontend fallback of cleanupGeneratedFiles: remove the matching
keys from localStorage and sessionStorage. -/
def cleanupFrontendFallback (ls ss : WebStorage) : WebStorage × WebStorage :=
  (ls.filter fun kv => !cleanupKeyMatches kv.1,
   ss.filter fun kv => !cleanupKeyMatches kv.1)

/-- Response of POST /api/cleanup-files as read by cleanupGeneratedFiles:
the ok flag and statusText of the HTTP response and the parsed JSON
body. -/
structure CleanupResponse where
  ok : Bool
  statusText : String
  message : String
  deleted_files : List String
  deriving DecidableEq, Repr

/-- cleanupGeneratedFiles of use-page-leave: POST /api/cleanup-files; a
transport failure or a non-ok response lands in the catch block, which
logs and runs the frontend storage fallback; the function always resolves
(the result is always Except.ok). -/
def cleanupGeneratedFiles (fetchOutcome : Except String CleanupResponse)
    (ls ss : WebStorage) : Except String (WebStorage × WebStorage) :=
  match fetchOutcome with
  | .ok resp =>
      if resp.ok then .ok (ls, ss)
      else .ok (cleanupFrontendFallback ls ss)
  | .error _ => .ok (cleanupFrontendFallback ls ss)

/-- What the beforeunload handler produces: the (caught) outcome of the
cleanup promise it fires without awaiting, and the returnValue it sets on
the event. -/
structure BeforeUnloadResult where
  cleanupOutcome : Option (WebStorage × WebStorage)
  returnValue : String
  deriving DecidableEq, Repr

/-- handleBeforeUnload of usePageLeaveConfirmation: call the onBeforeUnload
logger, fire cleanupFiles() without awaiting with its rejection caught by
.catch(console.error) (modelled by Except.toOption), then set and return
the confirmation message. -/
def handleBeforeUnload (fetchOutcome : Except String CleanupResponse)
    (ls ss : WebStorage) (message : String) : BeforeUnloadResult :=
  { cleanupOutcome := (cleanupGeneratedFiles fetchOutcome ls ss).toOption
    returnValue := message }

/-- A sentiment_distribution entry of ChannelStats. -/
structure SentimentDatum where
  sentiment : String
  count : Int
  percentage : ℚ
  deriving DecidableEq, Repr

/-- An engagement_over_time entry of ChannelStats. -/
structure EngagementDatum where
  date : String
  likes : Int
  comments : Int
  views : Int
  deriving DecidableEq, Repr

/-- A top_keywords entry of ChannelStats. -/
structure KeywordDatum where
  keyword : String
  count : Int
  deriving DecidableEq, Repr

/-- A comment_trends entry of ChannelStats. -/
structure CommentTrendDatum where
  hour : Int
  count : Int
  deriving DecidableEq, Repr

/-- A monthly_growth entry of ChannelStats. -/
structure MonthlyGrowthDatum where
  month : String
  subscribers : Int
  views : Int
  deriving DecidableEq, Repr

/-- ChannelStats as declared by FullScreenDashboard. -/
structure ChannelStats where
  channel_name : String
  subscriber_count : String
  total_videos : Int
  total_comments : Int
  total_views : Int
  channel_created : String
  avg_sentiment_score : ℚ
  sentiment_distribution : List SentimentDatum
  engagement_over_time : List EngagementDatum
  top_keywords : List KeywordDatum
  comment_trends : List CommentTrendDatum
  monthly_growth : List MonthlyGrowthDatum
  deriving DecidableEq, Repr

/-- The hardcoded mock dataset FullScreenDashboard installs in the catch
branch of fetchDashboardData. -/
def mockChannelStats : ChannelStats :=
  { channel_name := "Sample Creator Channel"
    subscriber_count := "125,423"
    total_videos := 87
    total_comments := 4250
    total_views := 2847632
    channel_created := "2021-03-15"
    avg_sentiment_score := 72 / 100
    sentiment_distribution :=
      [{ sentiment := "Positive", count := 2785, percentage := 655 / 10 },
       { sentiment := "Neutral", count := 935, percentage := 22 },
       { sentiment := "Negative", count := 530, percentage := 125 / 10 }]
    engagement_over_time :=
      [{ date := "2024-01", likes := 15600, comments := 420, views := 185600 },
       { date := "2024-02", likes := 18200, comments := 510, views := 224800 },
       { date := "2024-03", likes := 21400, comments := 625, views := 267200 },
       { date := "2024-04", likes := 24800, comments := 742, views := 312400 },
       { date := "2024-05", likes := 28300, comments := 856, views := 365800 },
       { date := "2024-06", likes := 32100, comments := 945, views := 425600 }]
    top_keywords :=
      [{ keyword := "amazing", count := 342 },
       { keyword := "helpful", count := 287 },
       { keyword := "great", count := 265 },
       { keyword := "awesome", count := 234 },
       { keyword := "love", count := 198 },
       { keyword := "fantastic", count := 176 },
       { keyword := "excellent", count := 154 },
       { keyword := "perfect", count := 132 }]
    comment_trends :=
      [{ hour := 0, count := 45 }, { hour := 1, count := 28 },
       { hour := 2, count := 18 }, { hour := 3, count := 12 },
       { hour := 4, count := 15 }, { hour := 5, count := 25 },
       { hour := 6, count := 58 }, { hour := 7, count := 89 },
       { hour := 8, count := 134 }, { hour := 9, count := 167 },
       { hour := 10, count := 201 }, { hour := 11, count := 245 },
       { hour := 12, count := 289 }, { hour := 13, count := 312 },
       { hour := 14, count := 334 }, { hour := 15, count := 378 },
       { hour := 16, count := 425 }, { hour := 17, count := 467 },
       { hour := 18, count := 523 }, { hour := 19, count := 589 },
       { hour := 20, count := 612 }, { hour := 21, count := 545 },
       { hour := 22, count := 434 }, { hour := 23, count := 267 }]
    monthly_growth :=
      [{ month := "Jan 2024", subscribers := 98420, views := 1456000 },
       { month := "Feb 2024", subscribers := 105680, views := 1687000 },
       { month := "Mar 2024", subscribers := 112450, views := 1892000 },
       { month := "Apr 2024", subscribers := 118920, views := 2134000 },
       { month := "May 2024", subscribers := 122340, views := 2387000 },
       { month := "Jun 2024", subscribers := 125423, views := 2847632 }]}

/-- Component state of FullScreenDashboard. -/
structure DashboardState where
  dashboardData : Option ChannelStats
  error : Option String
  loading : Bool
  deriving DecidableEq, Repr

/-- fetchDashboardData of FullScreenDashboard: set loading and clear the
error, try the GET; on success store the payload, on any failure set the
error message and install the mock dataset; finally clear loading. -/
def fetchDashboardData (outcome : Except String ChannelStats)
    (s : DashboardState) : DashboardState :=
  let s1 : DashboardState := { s with loading := true, error := none }
  let s2 : DashboardState :=
    match outcome with
    | .ok data => { s1 with dashboardData := some data }
    | .error _ =>
        { s1 with error := some "Failed to load dashboard data"
                  dashboardData := some mockChannelStats }
  { s2 with loading := false }

/-- The three screens FullScreenDashboard can render. -/
inductive DashboardScreen
  | loadingView
  | errorView
  | mainView
  deriving DecidableEq, Repr

/-- The render guards of FullScreenDashboard: the loading screen while
loading, the error screen only when error is set and dashboardData is
null, the main dashboard otherwise. -/
def renderFullScreenDashboard (s : DashboardState) : DashboardScreen :=
  if s.loading then .loadingView
  else if s.error.isSome && s.dashboardData.isNone then .errorView
  else .mainView

/-- The member names of the apiService object literal exported by
src/services/api.ts, in source order. -/
def apiServiceMemberNames : List String :=
  ["startAnalysis", "getStatus", "getLogs", "getResults",
   "getAnalyzedContent", "getChartData", "resetAnalysis",
   "getDashboardImageUrl", "getChartImageUrl", "getAvailableFiles",
   "checkDashboardExists", "healthCheck"]

/-- JavaScript member lookup on the apiService object: true exactly when
the object literal defines the member. -/
def apiServiceHasMember (n : String) : Bool :=
  n ∈ apiServiceMemberNames

/-- JavaScript runtime errors relevant here. -/
inductive JsError
  /-- Calling undefined as a function. -/
  | typeError
  deriving DecidableEq, Repr

/-- Outcome of the RealTimeAnalysis WebSocket effect body. -/
inductive RtaEffectOutcome
  /-- isAnalyzing is false: the effect installs nothing. -/
  | noConnection
  /-- A socket was created and its message handlers were installed. -/
  | handlersInstalled
  /-- Evaluating the effect threw. -/
  | thrown (e : JsError)
  deriving DecidableEq, Repr

/-- The RealTimeAnalysis effect on isAnalyzing: when analyzing it
evaluates apiService.createWebSocket(onMessage, onError); member access on
the object yields undefined for an undefined member, and calling it throws
a TypeError, so no handlers are installed. -/
def rtaWebSocketEffect (isAnalyzing : Bool) : RtaEffectOutcome :=
  if isAnalyzing then
    if apiServiceHasMember "createWebSocket" then .handlersInstalled
    else .thrown .typeError
  else .noConnection

/-- The WebSocket-driven completion path of RealTimeAnalysis (the
onAnalysisComplete call inside the message handler) is reachable only
when the handlers were installed. -/
def rtaCompletionReachable : RtaEffectOutcome → Bool
  | .handlersInstalled => true
  | _ => false

theorem jsTrimList_eq_nil_of_allWs (l : List Char) (h : ∀ c ∈ l, isJsWs c = true) :
    jsTrimList l = [] := by
  unfold jsTrimList
  have h1 : l.dropWhile isJsWs = [] := by simpa using h
  simp [h1]

theorem jsTrim_eq_empty_of_allWs (s : String) (h : allJsWs s) :
    jsTrim s = "" := by
  unfold jsTrim
  rw [jsTrimList_eq_nil_of_allWs s.data h]

theorem foldl_proj_last {S F : Type} (g : S → F → S) (p : S → Int) (q : F → Int)
    (hg : ∀ s f, p (g s f) = q f) :
    ∀ (fs : List F) (init : S) (f : F), fs.getLast? = some f →
      p (fs.foldl g init) = q f := by
  intro fs
  induction fs with
  | nil => intro init f h; simp at h
  | cons x xs ih =>
    intro init f h
    cases xs with
    | nil =>
      simp only [List.getLast?_singleton, Option.some.injEq] at h
      simpa [List.foldl, ← h] using hg init x
    | cons y ys =>
      rw [List.getLast?_cons_cons] at h
      rw [List.foldl_cons]
      exact ih (g init x) f h

/-- C1: for an empty or whitespace-only channel identifier no API call is
made: CreatorProfile.handleSubmit does not navigate to the analysis route,
both part_000 RealTimeLogger startAnalysis variants return before issuing
the POST to the analyze endpoint, and RealTimeAnalysis.startAnalysis
returns before calling apiService.startAnalysis, whether the identifier
reaches it through the state value or through the call parameter. -/
theorem c1_blank_channel_id_no_api_call (s : String) (hs : allJsWs s) :
    handleSubmit s = none ∧
    (∀ isProd, rtlStartAnalysis isProd s = none) ∧
    (∀ isProd, rtl2StartAnalysis isProd s = none) ∧
    (∀ isProd, rtaStartAnalysis isProd none s = none) ∧
    (∀ isProd, rtaStartAnalysis isProd (some s) s = none) := by
  have ht : jsTrim s = "" := jsTrim_eq_empty_of_allWs s hs
  refine ⟨?_, ?_, ?_, ?_, ?_⟩
  · simp [handleSubmit, ht]
  · intro isProd; simp [rtlStartAnalysis, ht]
  · intro isProd; simp [rtl2StartAnalysis, ht]
  · intro isProd; simp [rtaStartAnalysis, jsOrElse, ht]
  · intro isProd; simp [rtaStartAnalysis, jsOrElse, ht, ite_self]

theorem c1_blank_channel_id_no_api_call_witness :
    allJsWs "  " ∧
    handleSubmit "  " = none ∧
    rtlStartAnalysis true "  " = none ∧
    rtaStartAnalysis true (some "  ") "  " = none := by
  have h := c1_blank_channel_id_no_api_call "  " (by decide)
  exact ⟨by decide, h.1, h.2.1 true, h.2.2.2.2 true⟩

/-- C2 counterexample: the claim is false as stated. The RealTimeLogger
rendered on the /analysis page is FinalRealTimeLogger, and for the
non-empty channel identifier "UCabc123" its startAnalysis issues no
network request at all: it enters the processing branch and only simulates
results with a 2000 ms setTimeout. -/
theorem c2_counterexample :
    jsTrim "UCabc123" ≠ "" ∧
    (frtlStartAnalysis "UCabc123").apiCalls = [] ∧
    (frtlStartAnalysis "UCabc123").processingStarted = true ∧
    (frtlStartAnalysis "UCabc123").timerDelayMs = some 2000 := by
  decide

/-- C2 amended: for every channel identifier with a non-empty trim, the
part_000 RealTimeLogger variants POST to the analyze endpoint with a JSON
body containing the channel_id field, and apiService.startAnalysis always
POSTs a body containing channel_id; the FinalRealTimeLogger rendered on
the /analysis page, however, issues no API call and only simulates the
analysis locally. -/
theorem c2_nonempty_submit_posts_channel_id (s : String) (h : jsTrim s ≠ "") :
    (∀ isProd, rtlStartAnalysis isProd s =
      some { method := .post, url := analyzeApiUrl isProd,
             bodyFields := [("channel_id", jsTrim s)] }) ∧
    (∀ isProd, rtl2StartAnalysis isProd s = rtlStartAnalysis isProd s) ∧
    (∀ isProd c, apiStartAnalysisRequest isProd c =
      { method := .post, url := apiBaseUrl isProd ++ "/api/analyze",
        bodyFields := [("channel_id", c)] }) ∧
    (frtlStartAnalysis s).apiCalls = [] := by
  refine ⟨?_, ?_, ?_, ?_⟩
  · intro isProd; simp [rtlStartAnalysis, h]
  · intro isProd; simp [rtl2StartAnalysis, rtlStartAnalysis]
  · intro isProd c; rfl
  · unfold frtlStartAnalysis
    split <;> rfl

theorem c2_nonempty_submit_posts_channel_id_witness :
    jsTrim "UCxyz" ≠ "" ∧
    rtlStartAnalysis true "UCxyz" =
      some { method := .post, url := "/api/analyze",
             bodyFields := [("channel_id", "UCxyz")] } := by
  have h := c2_nonempty_submit_posts_channel_id "UCxyz" (by decide)
  refine ⟨by decide, ?_⟩
  have h1 := h.1 true
  simpa [analyzeApiUrl] using h1

/-- C3 counterexample: the claim is false as stated. For the entered
identifier consisting of " myChannel " with surrounding spaces, the
part_000 RealTimeLogger sends channel_id "myChannel": the value is
trimmed, not passed through unchanged. -/
theorem c3_counterexample :
    rtlStartAnalysis true " myChannel " =
      some { method := .post, url := "/api/analyze",
             bodyFields := [("channel_id", "myChannel")] } ∧
    ("myChannel" : String) ≠ " myChannel " := by
  decide

/-- C3 amended: the part_000 RealTimeLogger paths send the trimmed entered
string as channel_id; the RealTimeAnalysis path hands the entered string
unchanged to apiService.startAnalysis, which sends it unchanged; and
CreatorProfile passes the entered string as the channelId query value of
the navigation (encodeURIComponent applied for transport and decoded back
by useSearchParams). -/
theorem c3_channel_id_trimmed_in_logger_paths (s : String) (h : jsTrim s ≠ "") :
    (∀ isProd, rtlStartAnalysis isProd s =
      some { method := .post, url := analyzeApiUrl isProd,
             bodyFields := [("channel_id", jsTrim s)] }) ∧
    (∀ isProd, rtl2StartAnalysis isProd s =
      some { method := .post, url := analyzeApiUrl isProd,
             bodyFields := [("channel_id", jsTrim s)] }) ∧
    (∀ isProd, (apiStartAnalysisRequest isProd s).bodyFields =
      [("channel_id", s)]) ∧
    (∀ isProd, rtaStartAnalysis isProd none s =
      some (apiStartAnalysisRequest isProd s)) ∧
    handleSubmit s = some { route := "/analysis-realtime", queryChannelId := s } := by
  refine ⟨?_, ?_, ?_, ?_, ?_⟩
  · intro isProd; simp [rtlStartAnalysis, h]
  · intro isProd; simp [rtl2StartAnalysis, h]
  · intro isProd; rfl
  · intro isProd; simp [rtaStartAnalysis, jsOrElse, h]
  · simp [handleSubmit, h]

theorem c3_channel_id_trimmed_in_logger_paths_witness :
    jsTrim "UCabc" ≠ "" ∧
    (apiStartAnalysisRequest true "UCabc").bodyFields = [("channel_id", "UCabc")] ∧
    rtaStartAnalysis true none "UCabc" = some (apiStartAnalysisRequest true "UCabc") := by
  have h := c3_channel_id_trimmed_in_logger_paths "UCabc" (by decide)
  exact ⟨by decide, h.2.2.1 true, h.2.2.2.1 true⟩

/-- C4: for every non-empty sequence of received status updates, the
progress value rendered in the progress bar and the percentage label
equals the progress field of the last received update: in both part_000
RealTimeLogger variants (WebSocket frames, whole-state replacement and
spread-merge respectively) and on the polling Analysis page (GET
/api/status responses). -/
theorem c4_progress_mirrors_last_update
    (init : AnalysisFrame) (frames : List AnalysisFrame) (f : AnalysisFrame)
    (hf : frames.getLast? = some f)
    (sInit : AnalysisStatusR) (updates : List AnalysisStatusR)
    (u : AnalysisStatusR) (hu : updates.getLast? = some u) :
    rtlRenderedProgress (rtl1Run init frames) = f.progress ∧
    rtlRenderedProgress (rtl2Run init frames) = f.progress ∧
    analysisRenderedProgress (analysisPollRun sInit updates) = u.progress := by
  refine ⟨?_, ?_, ?_⟩
  · simpa [rtl1Run, rtlRenderedProgress] using
      foldl_proj_last rtl1OnMessage (fun s => s.progress) (fun d => d.progress)
        (fun _ _ => rfl) frames init f hf
  · simpa [rtl2Run, rtlRenderedProgress] using
      foldl_proj_last rtl2OnMessage (fun s => s.progress) (fun d => d.progress)
        (fun _ _ => rfl) frames init f hf
  · simpa [analysisPollRun, analysisRenderedProgress] using
      foldl_proj_last analysisPollApply (fun s => s.progress) (fun d => d.progress)
        (fun _ _ => rfl) updates sInit u hu

theorem c4_progress_mirrors_last_update_witness :
    rtlRenderedProgress (rtl1Run
      (AnalysisFrame.mk "idle" "" "" 0 none none (some []))
      [AnalysisFrame.mk "running" "youtube_extraction" "m1" 40 none none none,
       AnalysisFrame.mk "running" "llm_processing" "m2" 55 none none (some ["a"])]) = 55 ∧
    rtlRenderedProgress (rtl2Run
      (AnalysisFrame.mk "idle" "" "" 0 none none (some []))
      [AnalysisFrame.mk "running" "youtube_extraction" "m1" 40 none none none,
       AnalysisFrame.mk "running" "llm_processing" "m2" 55 none none (some ["a"])]) = 55 ∧
    analysisRenderedProgress (analysisPollRun
      (AnalysisStatusR.mk "idle" "" "" 0 none none)
      [AnalysisStatusR.mk "running" "sentiment_analysis" "m3" 80 none none,
       AnalysisStatusR.mk "completed" "completed" "done" 100 none none]) = 100 := by
  have h := c4_progress_mirrors_last_update
    (AnalysisFrame.mk "idle" "" "" 0 none none (some []))
    [AnalysisFrame.mk "running" "youtube_extraction" "m1" 40 none none none,
     AnalysisFrame.mk "running" "llm_processing" "m2" 55 none none (some ["a"])]
    (AnalysisFrame.mk "running" "llm_processing" "m2" 55 none none (some ["a"]))
    rfl
    (AnalysisStatusR.mk "idle" "" "" 0 none none)
    [AnalysisStatusR.mk "running" "sentiment_analysis" "m3" 80 none none,
     AnalysisStatusR.mk "completed" "completed" "done" 100 none none]
    (AnalysisStatusR.mk "completed" "completed" "done" 100 none none)
    rfl
  exact h

theorem toFixed1_eq_of_tenths (q : ℚ) (n : ℤ) (h : 10 * q = n) : toFixed1 q = q := by
  unfold toFixed1
  rw [h, round_intCast]
  have hq : q = (n : ℚ) / 10 := by
    rw [← h]; ring
  rw [hq]

/-- C5 counterexample: the claim is false as stated. For a fetched payload
with sentiment_breakdown positive value 33.37 the UI renders
33.37.toFixed(1), that is 33.4, which differs from the payload value: the
rendering rounds to one decimal place. -/
theorem c5_counterexample :
    dashboardRenderedPositive
      { positive := 3337 / 100, neutral := 33, negative := 3363 / 100 } ≠
      3337 / 100 ∧
    analysisRenderedBreakdown
      { positive := 3337 / 100, neutral := 33, negative := 3363 / 100 } ≠
      { positive := 3337 / 100, neutral := 33, negative := 3363 / 100 } := by
  have hv : toFixed1 (3337 / 100) = 167 / 5 := by
    unfold toFixed1
    norm_num [round_eq]
  constructor
  · unfold dashboardRenderedPositive
    rw [hv]; norm_num
  · intro hcontra
    have h1 : toFixed1 (3337 / 100) = 3337 / 100 :=
      congrArg SentimentBreakdown.positive hcontra
    rw [hv] at h1
    norm_num at h1

/-- C5 amended: the rendered sentiment percentages equal the fetched
payload values rounded to one decimal place (toFixed(1)); in particular
they equal the payload values exactly whenever each payload value is an
integer multiple of one tenth, on both the Analysis results card and the
part_002 Dashboard summary. -/
theorem c5_rendered_breakdown_equals_payload_tenths (b : SentimentBreakdown)
    (np nu ng : ℤ) (hp : 10 * b.positive = np) (hu : 10 * b.neutral = nu)
    (hg : 10 * b.negative = ng) :
    analysisRenderedBreakdown b = b ∧
    dashboardRenderedPositive b = b.positive := by
  have e1 := toFixed1_eq_of_tenths b.positive np hp
  have e2 := toFixed1_eq_of_tenths b.neutral nu hu
  have e3 := toFixed1_eq_of_tenths b.negative ng hg
  exact ⟨by simp [analysisRenderedBreakdown, e1, e2, e3], e1⟩

theorem c5_rendered_breakdown_equals_payload_tenths_witness :
    analysisRenderedBreakdown { positive := 655 / 10, neutral := 22, negative := 125 / 10 } =
      { positive := 655 / 10, neutral := 22, negative := 125 / 10 } ∧
    dashboardRenderedPositive { positive := 655 / 10, neutral := 22, negative := 125 / 10 } =
      655 / 10 := by
  have h := c5_rendered_breakdown_equals_payload_tenths
    { positive := 655 / 10, neutral := 22, negative := 125 / 10 }
    655 220 125 (by norm_num) (by norm_num) (by norm_num)
  exact h

/-- C6 counterexample: the claim is false as stated. healthCheck is a
network-calling method of apiService, yet when its request fails with a
backend-reported detail present it still rejects with the fixed message
instead of the detail. -/
theorem c6_counterexample :
    apiServiceHealthCheck (.error { detail := some "backend says maintenance" }) =
      .error "API server is not running" ∧
    ("API server is not running" : String) ≠ "backend says maintenance" := by
  exact ⟨rfl, by decide⟩

/-- C6 amended: every network-calling method of apiService except
healthCheck catches its failure and rejects with an Error whose message is
the backend-reported detail field when present and truthy (a missing chain
and an empty detail string are both falsy, yielding the per-operation
fallback, never the raw transport error); healthCheck always rejects with
the fixed message "API server is not running" regardless of any detail;
and checkDashboardExists catches any failure and resolves false, resolving
whether the dashboard field is non-null on success. -/
theorem c6_api_failures_mapped_per_operation (e : BackendFailure) :
    apiServiceStartAnalysis (.error e) =
      .error (jsDetailOr e.detail "Failed to start analysis") ∧
    apiServiceGetStatus (.error e) =
      .error (jsDetailOr e.detail "Failed to get status") ∧
    apiServiceGetLogs (.error e) =
      .error (jsDetailOr e.detail "Failed to get logs") ∧
    apiServiceGetResults (.error e) =
      .error (jsDetailOr e.detail "Failed to get results") ∧
    apiServiceGetAnalyzedContent (.error e) =
      .error (jsDetailOr e.detail "Failed to get analyzed content") ∧
    apiServiceGetChartData (.error e) =
      .error (jsDetailOr e.detail "Failed to get chart data") ∧
    apiServiceResetAnalysis (.error e) =
      .error (jsDetailOr e.detail "Failed to reset analysis") ∧
    apiServiceGetAvailableFiles (.error e) =
      .error (jsDetailOr e.detail "Failed to get available files") ∧
    (∀ d : String, d ≠ "" →
      apiServiceStartAnalysis (.error { detail := some d }) = .error d) ∧
    apiServiceStartAnalysis (.error { detail := some "" }) =
      .error "Failed to start analysis" ∧
    apiServiceStartAnalysis (.error { detail := none }) =
      .error "Failed to start analysis" ∧
    apiServiceHealthCheck (.error e) = .error "API server is not running" ∧
    apiServiceCheckDashboardExists (.error e) = .ok false ∧
    (∀ files : AvailableFiles,
      apiServiceCheckDashboardExists (.ok files) =
        .ok (files.dashboard ≠ none : Bool)) ∧
    (∀ a : AnalysisStatusR, apiServiceStartAnalysis (.ok a) = .ok a) := by
  refine ⟨rfl, rfl, rfl, rfl, rfl, rfl, rfl, rfl, ?_, ?_, rfl, rfl, rfl,
          fun _ => rfl, fun _ => rfl⟩
  · intro d hd
    simp [apiServiceStartAnalysis, apiWrap, jsDetailOr, hd]
  · simp [apiServiceStartAnalysis, apiWrap, jsDetailOr]

theorem c6_api_failures_mapped_per_operation_witness :
    apiServiceStartAnalysis (.error { detail := some "quota exceeded" }) =
      .error "quota exceeded" ∧
    apiServiceHealthCheck (.error { detail := some "quota exceeded" }) =
      .error "API server is not running" := by
  have h := c6_api_failures_mapped_per_operation { detail := some "quota exceeded" }
  exact ⟨h.2.2.2.2.2.2.2.2.1 "quota exceeded" (by decide),
         h.2.2.2.2.2.2.2.2.2.2.2.1⟩

/-- C7 counterexample: the claim is false as stated. The onerror handlers
of both part_000 RealTimeLogger variants only mark the connection
disconnected and schedule no reconnect timer at all (only onclose
schedules one), and in the second variant the timer scheduled by onclose
does not reconnect when the analysis is completed, so the retry is not
uncapped in every variant. -/
theorem c7_counterexample :
    (rtl1OnError { isConnected := true, attempts := 0 }).2 = [] ∧
    (rtl2OnError { isConnected := true, attempts := 0 }).2 = [] ∧
    timerReconnects true .reconnectIfNotCompleted = false := by
  decide

/-- C7 amended: whenever the WebSocket connection closes, each part_000
RealTimeLogger variant marks the connection disconnected and schedules a
timer exactly 3000 ms later, independently of how many reconnect rounds
happened before (no backoff, no retry cap in the first variant); the first
variant timer reconnects unconditionally while the second variant timer
reconnects only when the analysis is not completed; the onerror handlers
only mark the connection disconnected and schedule nothing. -/
theorem c7_close_schedules_fixed_3s_timer (s : WsConnState) :
    rtl1OnClose s = ({ s with isConnected := false },
      [{ delayMs := 3000, action := .reconnect }]) ∧
    rtl2OnClose s = ({ s with isConnected := false },
      [{ delayMs := 3000, action := .reconnectIfNotCompleted }]) ∧
    (∀ c, timerReconnects c .reconnect = true) ∧
    (∀ c, timerReconnects c .reconnectIfNotCompleted = !c) ∧
    (rtl1OnError s).1.isConnected = false ∧ (rtl1OnError s).2 = [] ∧
    (rtl2OnError s).1.isConnected = false ∧ (rtl2OnError s).2 = [] := by
  exact ⟨rfl, rfl, fun _ => rfl, fun _ => rfl, rfl, rfl, rfl, rfl⟩

/-- C8: the beforeunload handler fires the cleanup POST without awaiting
it, with any rejection swallowed by .catch, and always produces its
returnValue (it never throws); cleanupGeneratedFiles always resolves, and
on failure of the POST it falls back to removing exactly the localStorage
and sessionStorage keys prefixed with creatorGPT, youtube or analysis. -/
theorem c8_cleanup_best_effort_never_rejects
    (outcome : Except String CleanupResponse) (ls ss : WebStorage) (m : String) :
    (cleanupGeneratedFiles outcome ls ss).isOk = true ∧
    (∀ e, cleanupGeneratedFiles (.error e) ls ss =
      .ok (cleanupFrontendFallback ls ss)) ∧
    (handleBeforeUnload outcome ls ss m).returnValue = m ∧
    (handleBeforeUnload outcome ls ss m).cleanupOutcome.isSome = true ∧
    (∀ kv, kv ∈ (cleanupFrontendFallback ls ss).1 ↔
      kv ∈ ls ∧ cleanupKeyMatches kv.1 = false) ∧
    (∀ kv, kv ∈ (cleanupFrontendFallback ls ss).2 ↔
      kv ∈ ss ∧ cleanupKeyMatches kv.1 = false) := by
  refine ⟨?_, fun e => rfl, rfl, ?_, ?_, ?_⟩
  · unfold cleanupGeneratedFiles
    cases outcome with
    | ok resp => by_cases h : resp.ok <;> simp [h, Except.isOk, Except.toBool]
    | error e => simp [Except.isOk, Except.toBool]
  · unfold handleBeforeUnload cleanupGeneratedFiles
    cases outcome with
    | ok resp => by_cases h : resp.ok <;> simp [h, Except.toOption]
    | error e => simp [Except.toOption]
  · intro kv
    simp [cleanupFrontendFallback, List.mem_filter]
  · intro kv
    simp [cleanupFrontendFallback, List.mem_filter]

/-- C9: for every outcome of the GET /api/dashboard-data fetch, after
fetchDashboardData completes the loading flag is cleared and
dashboardData is non-null (on failure it is the hardcoded mock dataset,
installed together with the error message), so the error-only screen,
rendered only when error is set and dashboardData is null, is never
rendered after loading completes. -/
theorem c9_mock_fallback_makes_error_screen_unreachable
    (outcome : Except String ChannelStats) (s : DashboardState) :
    (fetchDashboardData outcome s).loading = false ∧
    (fetchDashboardData outcome s).dashboardData.isSome = true ∧
    (∀ e, (fetchDashboardData (.error e) s).dashboardData = some mockChannelStats ∧
      (fetchDashboardData (.error e) s).error = some "Failed to load dashboard data") ∧
    renderFullScreenDashboard (fetchDashboardData outcome s) = .mainView := by
  refine ⟨?_, ?_, fun e => ⟨rfl, rfl⟩, ?_⟩
  · cases outcome <;> rfl
  · cases outcome <;> rfl
  · cases outcome <;> rfl

/-- C10: the apiService object literal defines no createWebSocket member,
so the RealTimeAnalysis effect that runs when isAnalyzing becomes true
evaluates a call on an undefined member, throws a TypeError, installs no
message handlers, and the WebSocket-driven completion path is never
reached; when isAnalyzing is false the effect installs nothing. -/
theorem c10_createWebSocket_member_undefined :
    apiServiceHasMember "createWebSocket" = false ∧
    rtaWebSocketEffect true = .thrown .typeError ∧
    rtaCompletionReachable (rtaWebSocketEffect true) = false ∧
    rtaWebSocketEffect false = .noConnection := by
  decide

end CreatorGPT
